import Mathlib

/-!
Shallow embedding of the discover/execute operation-registry protocol of the
geotab MCP repository.  Two server variants are modelled:

* `ServerA` — `geotab-mcp-server` (`mcp_server/server.py`,
  `mcp_server/operations.py`, `mcp_server/models.py`): the dispatcher splats
  the request's `parameters` dict as keyword arguments into a bound method of
  `GeotabOperations`.
* `ServerB` — `geotab-mcp-docker` (`mcp/operations.py`, `mcp/models.py`,
  and the FastAPI app in `mcp/server.py`): each handler receives the raw
  `parameters` dict and reads keys with `.get`.

Modelling conventions, used throughout:

* JSON/Python values are the inductive `Value`; Python numbers are embedded
  as integers (every numeric literal in the source and in the claims is
  integral, so no floating-point behaviour is lost).
* `datetime.now()` is an explicit integer parameter `now` (seconds since
  epoch); `timedelta(days = d)` is `d * 86400` seconds and
  `timedelta(hours = h)` is `h * 3600` seconds; `isoformat()` timestamps are
  stored as their numeric instant (`Value.vNum`).
* Python exceptions are `Except PyError _`; a handler "raising" is the
  `Except.error` case.  The external Geotab client is an opaque record of
  fallible functions (`DataSource` / `DataSourceB`), so stubs that raise or
  return no data are just record instances.
* The pydantic detail payload of a `ValidationError` is abstracted as an
  empty list (no claim inspects it); everything else in the response
  envelopes is modelled field by field.
-/

/-- A Python/JSON value: strings, numbers (embedded as integers), booleans,
None, lists and dicts with string keys. -/
inductive Value : Type where
  | vStr (s : String)
  | vNum (n : Int)
  | vBool (b : Bool)
  | vNull
  | vList (xs : List Value)
  | vObj (fields : List (String × Value))

/-- Python exception taxonomy needed by the dispatchers: `TypeError` (bad
keyword arguments), `ValueError` (docker handlers and `float()` failures),
and any other exception class. -/
inductive PyError : Type where
  | typeError (msg : String)
  | valueError (msg : String)
  | otherError (msg : String)

/-- The message carried by an exception, `str(e)` in the source. -/
def PyError.msg : PyError → String
  | .typeError m => m
  | .valueError m => m
  | .otherError m => m

/-- Python truthiness of a value: empty strings, zero, `False`, `None` and
empty collections are falsy. -/
def truthy : Value → Bool
  | .vStr s => !(s == "")
  | .vNum n => !(n == 0)
  | .vBool b => b
  | .vNull => false
  | .vList xs => !(xs.length == 0)
  | .vObj fs => !(fs.length == 0)

/-- Dictionary read `d[k]` with a default: `d.get(k, dflt)`.  The receiver
must actually be a dict; on any other value Python raises
`AttributeError` (mapped to `PyError.otherError`). -/
def objGet (v : Value) (key : String) (dflt : Value) : Except PyError Value :=
  match v with
  | .vObj fields =>
      match fields.lookup key with
      | some x => .ok x
      | none => .ok dflt
  | _ => .error (.otherError ("AttributeError: get on non-dict value"))

/-- Python `float(x)` restricted to the integral embedding: numbers map to
themselves, booleans to 0/1, numeric strings parse, anything else raises
(`ValueError` for non-numeric strings, `TypeError` otherwise). -/
def pyFloat : Value → Except PyError Int
  | .vNum n => .ok n
  | .vBool b => .ok (if b then 1 else 0)
  | .vStr s =>
      match s.toInt? with
      | some n => .ok n
      | none => .error (.valueError ("could not convert string to float: " ++ s))
  | _ => .error (.typeError "float() argument must be a string or a real number")

/-- Parameter description in the discover catalog (`MCPParameter` in both
variants' `models.py`): name, declared type string, description, required
flag and optional default. -/
structure MCPParameter : Type where
  name : String
  type : String
  description : String
  required : Bool
  default : Option Value

/-- Operation description in the discover catalog (`MCPOperation`). -/
structure MCPOperation : Type where
  name : String
  description : String
  parameters : List MCPParameter
  returns : String

/-- Response envelope: the tagged union of the three pydantic response
models (`MCPDiscoverResponse`, `MCPExecuteResponse`, `MCPErrorResponse`). -/
inductive MCPResponse : Type where
  | discoverR (version : String) (operations : List MCPOperation)
  | executeR (version : String) (operation : String) (result : List (String × Value))
  | errorR (version : String) (error : String) (details : Option (List (String × Value)))

/-- The `type` discriminator each response model serializes
(`"discover"`, `"execute"`, `"error"`). -/
def MCPResponse.respType : MCPResponse → String
  | .discoverR _ _ => "discover"
  | .executeR _ _ _ => "execute"
  | .errorR _ _ _ => "error"

/-- The `error` message field of an error envelope, if the response is one. -/
def MCPResponse.errField : MCPResponse → Option String
  | .errorR _ e _ => some e
  | _ => none

/-- The `details` field of an error envelope, if the response is one. -/
def MCPResponse.detailsField : MCPResponse → Option (List (String × Value))
  | .errorR _ _ d => d
  | _ => none

/-- The operation list of a discover envelope (empty for other variants). -/
def MCPResponse.opsField : MCPResponse → List MCPOperation
  | .discoverR _ ops => ops
  | _ => []

/-- MCP protocol version constant, `MCP_VERSION = "0.1.0"` in both variants. -/
def MCP_VERSION : String := "0.1.0"

namespace ServerA

/-- The external Geotab client as seen by `GeotabOperations`
(`mcp_server/operations.py`): four fallible query functions.  A stub
`FleetDataSource` is just an instance of this record. -/
structure DataSource : Type where
  get_devices : Except PyError (List Value)
  get_device_location : Value → Except PyError Value
  get_trip_data : Value → Int → Int → Except PyError (List Value)
  get_fault_data : Value → Int → Int → Except PyError (List Value)

/-- The `OPERATIONS` catalog of `mcp_server/server.py` (lines 53-128),
copied entry by entry. -/
def OPERATIONS : List MCPOperation :=
  [ { name := "get_device_info"
    , description := "Get information about all devices in the Geotab account"
    , parameters :=
        [ { name := "include_inactive"
          , type := "boolean"
          , description := "Whether to include inactive devices in the results"
          , required := false
          , default := some (.vBool false) } ]
    , returns := "A list of devices with their properties and status information" }
  , { name := "get_device_location"
    , description := "Get the current location of a specific device"
    , parameters :=
        [ { name := "device_id"
          , type := "string"
          , description := "ID of the device to get location for"
          , required := true
          , default := none } ]
    , returns := "Current location information including coordinates, speed, and address" }
  , { name := "get_trip_data"
    , description := "Get trip data for a specific device within a time range"
    , parameters :=
        [ { name := "device_id"
          , type := "string"
          , description := "ID of the device to get trip data for"
          , required := true
          , default := none }
        , { name := "days"
          , type := "integer"
          , description := "Number of days to look back from current time"
          , required := false
          , default := some (.vNum 1) } ]
    , returns := "List of trips with start/end locations, distance, duration, and other metrics" }
  , { name := "get_fault_data"
    , description := "Get fault codes and diagnostic data for a device"
    , parameters :=
        [ { name := "device_id"
          , type := "string"
          , description := "ID of the device to get fault data for"
          , required := true
          , default := none }
        , { name := "days"
          , type := "integer"
          , description := "Number of days to look back from current time"
          , required := false
          , default := some (.vNum 7) }
        , { name := "active_only"
          , type := "boolean"
          , description := "Whether to include only active faults"
          , required := false
          , default := some (.vBool false) } ]
    , returns := "List of fault codes with diagnostic information, timestamps, and status" } ]

/-- The four bound methods of `GeotabOperations` that `operation_map` can
resolve to. -/
inductive OpMethod : Type where
  | get_device_info
  | get_device_location
  | get_trip_data
  | get_fault_data
deriving DecidableEq

/-- The `operation_map` class attribute of `GeotabOperations`
(`mcp_server/operations.py`, lines 143-148): operation name to method. -/
def operation_map : List (String × OpMethod) :=
  [ ("get_device_info", .get_device_info)
  , ("get_device_location", .get_device_location)
  , ("get_trip_data", .get_trip_data)
  , ("get_fault_data", .get_fault_data) ]

/-- One formal parameter of a Python method: its name and its default value
(`none` means the parameter is required). -/
structure ParamSig : Type where
  name : String
  dflt : Option Value

/-- The Python signature of each `GeotabOperations` method, read off the
`def` lines of `mcp_server/operations.py` (`self` excluded, since the
dispatcher passes it positionally). -/
def sigOf : OpMethod → List ParamSig
  | .get_device_info => [⟨"include_inactive", some (.vBool false)⟩]
  | .get_device_location => [⟨"device_id", none⟩]
  | .get_trip_data => [⟨"device_id", none⟩, ⟨"days", some (.vNum 1)⟩]
  | .get_fault_data =>
      [⟨"device_id", none⟩, ⟨"days", some (.vNum 7)⟩, ⟨"active_only", some (.vBool false)⟩]

/-- Binding of the declared parameters once no unexpected keyword remains:
each declared parameter takes the supplied value or its default, and a
required parameter with no supplied value raises `TypeError`, exactly as
Python binds `**kwargs` against a `def` signature. -/
def bindSig (kwargs : List (String × Value)) : List ParamSig → Except PyError (List (String × Value))
  | [] => .ok []
  | p :: rest =>
      match kwargs.lookup p.name, p.dflt with
      | some v, _ =>
          match bindSig kwargs rest with
          | .ok bound => .ok ((p.name, v) :: bound)
          | .error e => .error e
      | none, some d =>
          match bindSig kwargs rest with
          | .ok bound => .ok ((p.name, d) :: bound)
          | .error e => .error e
      | none, none =>
          .error (.typeError ("missing a required argument: " ++ p.name))

/-- Python's keyword-argument binding for `method(self, **kwargs)`: a keyword
that names no declared parameter raises `TypeError` (unexpected keyword
argument), otherwise the declared parameters are bound by `bindSig`. -/
def bindKwargs (sig : List ParamSig) (kwargs : List (String × Value)) :
    Except PyError (List (String × Value)) :=
  match kwargs.find? (fun kv => !(sig.any (fun p => p.name == kv.1))) with
  | some kv => .error (.typeError ("got an unexpected keyword argument " ++ kv.1))
  | none => bindSig kwargs sig

/-- Read a bound argument by name (total: `bindSig` binds every declared
name). -/
def getArg (bound : List (String × Value)) (name : String) : Value :=
  (bound.lookup name).getD .vNull

/-- The list comprehension of `get_device_info` / `get_fault_data`:
keep the records whose `get` of the given key (with the given default) is
truthy; a non-dict record raises, as `d.get` would. -/
def filterByKey (key : String) (dflt : Value) : List Value → Except PyError (List Value)
  | [] => .ok []
  | d :: rest => do
      let a ← objGet d key dflt
      let tail ← filterByKey key dflt rest
      if truthy a then pure (d :: tail) else pure tail

/-- Body of `GeotabOperations.get_device_info` (`operations.py` lines
14-36): fetch devices, drop inactive ones unless `include_inactive`, and
wrap the result dict. -/
def get_device_info (ds : DataSource) (now : Int) (include_inactive : Value) :
    Except PyError (List (String × Value)) := do
  let devices ← ds.get_devices
  let devices ←
    if truthy include_inactive then pure devices
    else filterByKey "active" (.vBool true) devices
  pure [ ("operation", .vStr "get_device_info")
       , ("result", .vObj
           [ ("devices", .vList devices)
           , ("count", .vNum devices.length)
           , ("timestamp", .vNum now) ]) ]

/-- Body of `GeotabOperations.get_device_location` (`operations.py` lines
38-66): a falsy location produces a success dict that carries an `error`
key, a truthy one the location. -/
def get_device_location (ds : DataSource) (now : Int) (device_id : Value) :
    Except PyError (List (String × Value)) := do
  let location ← ds.get_device_location device_id
  if truthy location then
    pure [ ("operation", .vStr "get_device_location")
         , ("result", .vObj
             [ ("location", location)
             , ("timestamp", .vNum now) ]) ]
  else
    pure [ ("operation", .vStr "get_device_location")
         , ("result", .vObj
             [ ("error", .vStr "Device location not found")
             , ("device_id", device_id)
             , ("timestamp", .vNum now) ]) ]

/-- Body of `GeotabOperations.get_trip_data` (`operations.py` lines 68-100):
`from_date = now - timedelta(days)` and `to_date = now`, then the trips with
their count.  `timedelta(days = x)` needs a number, so a non-numeric `days`
raises `TypeError`. -/
def get_trip_data (ds : DataSource) (now : Int) (device_id days : Value) :
    Except PyError (List (String × Value)) := do
  let d ←
    match days with
    | .vNum n => .ok n
    | .vBool b => .ok (if b then (1 : Int) else 0)
    | _ => .error (.typeError "unsupported type for timedelta days component")
  let from_date := now - d * 86400
  let to_date := now
  let trips ← ds.get_trip_data device_id from_date to_date
  pure [ ("operation", .vStr "get_trip_data")
       , ("result", .vObj
           [ ("device_id", device_id)
           , ("from_date", .vNum from_date)
           , ("to_date", .vNum to_date)
           , ("trips", .vList trips)
           , ("count", .vNum trips.length)
           , ("timestamp", .vNum now) ]) ]

/-- Body of `GeotabOperations.get_fault_data` (`operations.py` lines
102-140): same date window, faults filtered to active ones when
`active_only` is truthy. -/
def get_fault_data (ds : DataSource) (now : Int) (device_id days active_only : Value) :
    Except PyError (List (String × Value)) := do
  let d ←
    match days with
    | .vNum n => .ok n
    | .vBool b => .ok (if b then (1 : Int) else 0)
    | _ => .error (.typeError "unsupported type for timedelta days component")
  let from_date := now - d * 86400
  let to_date := now
  let faults ← ds.get_fault_data device_id from_date to_date
  let faults ←
    if truthy active_only then filterByKey "active" (.vBool false) faults
    else pure faults
  pure [ ("operation", .vStr "get_fault_data")
       , ("result", .vObj
           [ ("device_id", device_id)
           , ("from_date", .vNum from_date)
           , ("to_date", .vNum to_date)
           , ("faults", .vList faults)
           , ("count", .vNum faults.length)
           , ("active_only", active_only)
           , ("timestamp", .vNum now) ]) ]

/-- Run a resolved method body on already-bound arguments. -/
def runBody (ds : DataSource) (now : Int) :
    OpMethod → List (String × Value) → Except PyError (List (String × Value))
  | .get_device_info, bound => get_device_info ds now (getArg bound "include_inactive")
  | .get_device_location, bound => get_device_location ds now (getArg bound "device_id")
  | .get_trip_data, bound =>
      get_trip_data ds now (getArg bound "device_id") (getArg bound "days")
  | .get_fault_data, bound =>
      get_fault_data ds now (getArg bound "device_id") (getArg bound "days")
        (getArg bound "active_only")

/-- `await operation_method(geotab_ops, **request.parameters)` from
`handle_execute` (`server.py` line 209): bind the keyword arguments against
the method signature, then run the body. -/
def runMethod (ds : DataSource) (now : Int) (m : OpMethod) (params : List (String × Value)) :
    Except PyError (List (String × Value)) :=
  (bindKwargs (sigOf m) params).bind (runBody ds now m)

/-- `result["result"]` from `handle_execute` (`server.py` line 215): a
missing key raises `KeyError`; a non-dict value makes the pydantic
`MCPExecuteResponse` constructor raise, both landing in the generic
`except Exception` branch. -/
def extractResult (full : List (String × Value)) : Except PyError (List (String × Value)) :=
  match full.lookup "result" with
  | some (.vObj r) => .ok r
  | some _ => .error (.otherError "ValidationError: result is not a dict")
  | none => .error (.otherError "KeyError: result")

/-- The try/except of `handle_execute` (`server.py` lines 204-236): success
wraps the inner result, `TypeError` becomes the `Invalid parameters` error
envelope, any other exception the `Operation execution failed` one; both
carry `str(e)` as `details.message`. -/
def dispatchResult (op : String) (r : Except PyError (List (String × Value))) : MCPResponse :=
  match r with
  | .ok result => .executeR MCP_VERSION op result
  | .error (.typeError m) =>
      .errorR MCP_VERSION "Invalid parameters" (some [("message", .vStr m)])
  | .error e =>
      .errorR MCP_VERSION "Operation execution failed" (some [("message", .vStr e.msg)])

/-- `handle_execute` (`server.py` lines 188-236): unknown operations get the
`Unknown operation` envelope listing `operation_map` keys; otherwise the
resolved method runs and its outcome is wrapped by `dispatchResult`. -/
def handle_execute (ds : DataSource) (now : Int) (op : String)
    (params : List (String × Value)) : MCPResponse :=
  match operation_map.lookup op with
  | none =>
      .errorR MCP_VERSION "Unknown operation"
        (some [ ("requested_operation", .vStr op)
              , ("available_operations", .vList (operation_map.map (fun kv => .vStr kv.1))) ])
  | some m => dispatchResult op ((runMethod ds now m params).bind extractResult)

/-- `handle_discover` (`server.py` lines 175-185): the caller's version is
logged and otherwise ignored; the response is tagged `MCP_VERSION` and
carries the whole `OPERATIONS` catalog. -/
def handle_discover (_request_version : String) : MCPResponse :=
  .discoverR MCP_VERSION OPERATIONS

/-- Details payload the endpoint attaches to a pydantic `ValidationError`
(`server.py` lines 158-163); the pydantic error list itself is abstracted as
an empty list, no claim inspects it. -/
def validationDetails : Option (List (String × Value)) :=
  some [("validation_errors", .vList [])]

/-- Pydantic v1 coercion to `str` for the `version` and `operation` fields:
strings pass, numbers and booleans coerce, container values raise
`ValidationError`. -/
def coerceStr : Value → Except PyError String
  | .vStr s => .ok s
  | .vNum n => .ok (toString n)
  | .vBool b => .ok (if b then "True" else "False")
  | _ => .error (.otherError "ValidationError: str type expected")

/-- `mcp_endpoint` (`server.py` lines 131-172) on an already-parsed JSON
object: dispatch on `data.get("type")`; `discover` and `execute` construct
their pydantic request models (missing/ill-typed required fields raise
`ValidationError`, answered with `Invalid request format`), any other type
is answered with `Invalid request type`.  The function is total: every
request value gets a response envelope. -/
def mcp_endpoint (ds : DataSource) (now : Int) (data : List (String × Value)) : MCPResponse :=
  match data.lookup "type" with
  | some (.vStr t) =>
      if t = "discover" then
        match data.lookup "version" with
        | some v =>
            match coerceStr v with
            | .ok s => handle_discover s
            | .error _ => .errorR MCP_VERSION "Invalid request format" validationDetails
        | none => .errorR MCP_VERSION "Invalid request format" validationDetails
      else if t = "execute" then
        match data.lookup "version", data.lookup "operation" with
        | some v, some o =>
            (match coerceStr v, coerceStr o with
             | .ok _, .ok op =>
                 (match data.lookup "parameters" with
                  | some (.vObj p) => handle_execute ds now op p
                  | none => handle_execute ds now op []
                  | some _ => .errorR MCP_VERSION "Invalid request format" validationDetails)
             | _, _ => .errorR MCP_VERSION "Invalid request format" validationDetails)
        | _, _ => .errorR MCP_VERSION "Invalid request format" validationDetails
      else
        .errorR MCP_VERSION "Invalid request type"
          (some [("supported_types", .vList [.vStr "discover", .vStr "execute"])])
  | _ =>
      .errorR MCP_VERSION "Invalid request type"
        (some [("supported_types", .vList [.vStr "discover", .vStr "execute"])])

end ServerA

namespace ServerB

/-- The external Geotab client as seen by the docker variant's handlers
(`mcp/operations.py`): five fallible query functions, with the extra
arguments each handler forwards (`include_non_trip_data`,
`include_inactive`, `diagnostic_id`). -/
structure DataSourceB : Type where
  get_devices : Value → Except PyError (List Value)
  get_device_location : Value → Except PyError Value
  get_trips : Value → Int → Int → Value → Except PyError (List Value)
  get_fault_data : Value → Int → Int → Bool → Except PyError (List Value)
  get_status_data : Value → Value → Int → Int → Except PyError (List Value)

/-- The `OPERATIONS` catalog of `mcp/operations.py` (lines 17-126), copied
entry by entry. -/
def OPERATIONS : List MCPOperation :=
  [ { name := "get_devices"
    , description := "Get a list of all devices in the Geotab account"
    , parameters :=
        [ { name := "include_inactive"
          , type := "boolean"
          , description := "Whether to include inactive devices"
          , required := false
          , default := some (.vBool false) } ]
    , returns := "List of devices with their properties and status" }
  , { name := "get_device_location"
    , description := "Get the current location of a specific device"
    , parameters :=
        [ { name := "device_id"
          , type := "string"
          , description := "ID of the device to get location for"
          , required := true
          , default := none } ]
    , returns := "Current location information including coordinates, speed, and address" }
  , { name := "get_trips"
    , description := "Get trip data for a specific device within a time range"
    , parameters :=
        [ { name := "device_id"
          , type := "string"
          , description := "ID of the device to get trips for"
          , required := true
          , default := none }
        , { name := "days"
          , type := "number"
          , description := "Number of days to look back from current time"
          , required := false
          , default := some (.vNum 1) }
        , { name := "include_stops"
          , type := "boolean"
          , description := "Whether to include stop information"
          , required := false
          , default := some (.vBool false) } ]
    , returns := "List of trips with start/end locations, distance, and other metrics" }
  , { name := "get_fault_data"
    , description := "Get fault codes and diagnostic data for a device"
    , parameters :=
        [ { name := "device_id"
          , type := "string"
          , description := "ID of the device to get fault data for"
          , required := true
          , default := none }
        , { name := "days"
          , type := "number"
          , description := "Number of days to look back from current time"
          , required := false
          , default := some (.vNum 7) }
        , { name := "active_only"
          , type := "boolean"
          , description := "Whether to include only active faults"
          , required := false
          , default := some (.vBool false) } ]
    , returns := "List of fault codes with diagnostic information" }
  , { name := "get_status_data"
    , description := "Get status data for a device"
    , parameters :=
        [ { name := "device_id"
          , type := "string"
          , description := "ID of the device to get status data for"
          , required := true
          , default := none }
        , { name := "diagnostic_id"
          , type := "string"
          , description := "ID of the diagnostic to filter by"
          , required := false
          , default := none }
        , { name := "hours"
          , type := "number"
          , description := "Number of hours to look back from current time"
          , required := false
          , default := some (.vNum 1) } ]
    , returns := "List of status data points with timestamp and values" } ]

/-- `parameters.get(key, dflt)` on the raw parameters dict. -/
def paramGet (params : List (String × Value)) (key : String) (dflt : Value) : Value :=
  (params.lookup key).getD dflt

/-- `handle_get_devices` (`mcp/operations.py` lines 134-153). -/
def handle_get_devices (ds : DataSourceB) (now : Int) (params : List (String × Value)) :
    Except PyError (List (String × Value)) := do
  let include_inactive := paramGet params "include_inactive" (.vBool false)
  let devices ← ds.get_devices include_inactive
  pure [ ("devices", .vList devices)
       , ("count", .vNum devices.length)
       , ("timestamp", .vNum now) ]

/-- `handle_get_device_location` (`mcp/operations.py` lines 156-183): a
falsy `device_id` raises `ValueError`; a falsy location yields a success
dict carrying an `error` key. -/
def handle_get_device_location (ds : DataSourceB) (now : Int)
    (params : List (String × Value)) : Except PyError (List (String × Value)) := do
  let device_id := paramGet params "device_id" .vNull
  if truthy device_id then do
    let location ← ds.get_device_location device_id
    if truthy location then
      pure [ ("location", location), ("timestamp", .vNum now) ]
    else
      pure [ ("error", .vStr "Location not available for device")
           , ("device_id", device_id)
           , ("timestamp", .vNum now) ]
  else
    .error (.valueError "device_id is required")

/-- `handle_get_trips` (`mcp/operations.py` lines 186-222): `days` is
coerced with `float()`, the window is `[now - days·86400, now]`, and the
result carries the trips with their count. -/
def handle_get_trips (ds : DataSourceB) (now : Int) (params : List (String × Value)) :
    Except PyError (List (String × Value)) := do
  let device_id := paramGet params "device_id" .vNull
  if truthy device_id then do
    let days ← pyFloat (paramGet params "days" (.vNum 1))
    let include_stops := paramGet params "include_stops" (.vBool false)
    let to_date := now
    let from_date := to_date - days * 86400
    let trips ← ds.get_trips device_id from_date to_date include_stops
    pure [ ("device_id", device_id)
         , ("from_date", .vNum from_date)
         , ("to_date", .vNum to_date)
         , ("trips", .vList trips)
         , ("count", .vNum trips.length)
         , ("timestamp", .vNum now) ]
  else
    .error (.valueError "device_id is required")

/-- `handle_get_fault_data` (`mcp/operations.py` lines 225-261). -/
def handle_get_fault_data (ds : DataSourceB) (now : Int) (params : List (String × Value)) :
    Except PyError (List (String × Value)) := do
  let device_id := paramGet params "device_id" .vNull
  if truthy device_id then do
    let days ← pyFloat (paramGet params "days" (.vNum 7))
    let active_only := paramGet params "active_only" (.vBool false)
    let to_date := now
    let from_date := to_date - days * 86400
    let faults ← ds.get_fault_data device_id from_date to_date (!truthy active_only)
    pure [ ("device_id", device_id)
         , ("from_date", .vNum from_date)
         , ("to_date", .vNum to_date)
         , ("faults", .vList faults)
         , ("count", .vNum faults.length)
         , ("timestamp", .vNum now) ]
  else
    .error (.valueError "device_id is required")

/-- `handle_get_status_data` (`mcp/operations.py` lines 264-301). -/
def handle_get_status_data (ds : DataSourceB) (now : Int) (params : List (String × Value)) :
    Except PyError (List (String × Value)) := do
  let device_id := paramGet params "device_id" .vNull
  if truthy device_id then do
    let diagnostic_id := paramGet params "diagnostic_id" .vNull
    let hours ← pyFloat (paramGet params "hours" (.vNum 1))
    let to_date := now
    let from_date := to_date - hours * 3600
    let status_data ← ds.get_status_data device_id diagnostic_id from_date to_date
    pure [ ("device_id", device_id)
         , ("diagnostic_id", diagnostic_id)
         , ("from_date", .vNum from_date)
         , ("to_date", .vNum to_date)
         , ("status_data", .vList status_data)
         , ("count", .vNum status_data.length)
         , ("timestamp", .vNum now) ]
  else
    .error (.valueError "device_id is required")

/-- Names of the five handler functions, for the `OPERATION_HANDLERS`
mapping. -/
inductive HandlerId : Type where
  | get_devices
  | get_device_location
  | get_trips
  | get_fault_data
  | get_status_data
deriving DecidableEq

/-- `OPERATION_HANDLERS` (`mcp/operations.py` lines 305-311): operation
name to handler function. -/
def OPERATION_HANDLERS : List (String × HandlerId) :=
  [ ("get_devices", .get_devices)
  , ("get_device_location", .get_device_location)
  , ("get_trips", .get_trips)
  , ("get_fault_data", .get_fault_data)
  , ("get_status_data", .get_status_data) ]

/-- Dispatch a handler id to its function. -/
def runHandler (ds : DataSourceB) (now : Int) :
    HandlerId → List (String × Value) → Except PyError (List (String × Value))
  | .get_devices, params => handle_get_devices ds now params
  | .get_device_location, params => handle_get_device_location ds now params
  | .get_trips, params => handle_get_trips ds now params
  | .get_fault_data, params => handle_get_fault_data ds now params
  | .get_status_data, params => handle_get_status_data ds now params

/-- `execute_operation` (`mcp/operations.py` lines 314-338): an unknown
operation raises `ValueError("Unknown operation: ...")`; otherwise the
handler runs and its exception, if any, is logged and re-raised. -/
def execute_operation (ds : DataSourceB) (now : Int) (op : String)
    (params : List (String × Value)) : Except PyError (List (String × Value)) :=
  match OPERATION_HANDLERS.lookup op with
  | none => .error (.valueError ("Unknown operation: " ++ op))
  | some h => runHandler ds now h params

/-- The inner try/except of `handle_execute` in the docker app
(`mcp/server.py`): success wraps the handler's dict as the `result`,
`ValueError` becomes the `Operation error` envelope, any other exception
the `Operation execution failed` one; both carry `str(e)` as
`details.message`. -/
def handle_execute_core (ds : DataSourceB) (now : Int) (op : String)
    (params : List (String × Value)) : MCPResponse :=
  match execute_operation ds now op params with
  | .ok result => .executeR MCP_VERSION op result
  | .error (.valueError m) =>
      .errorR MCP_VERSION "Operation error" (some [("message", .vStr m)])
  | .error e =>
      .errorR MCP_VERSION "Operation execution failed" (some [("message", .vStr e.msg)])

end ServerB

/-- A benign stub data source for the `geotab-mcp-server` variant: no
devices, no location, no trips, no faults. -/
def stubA : ServerA.DataSource :=
  { get_devices := .ok []
  , get_device_location := fun _ => .ok .vNull
  , get_trip_data := fun _ _ _ => .ok []
  , get_fault_data := fun _ _ _ => .ok [] }

/-- A stub data source for the `geotab-mcp-server` variant whose every
method raises. -/
def raisingA : ServerA.DataSource :=
  { get_devices := .error (.otherError "data source unavailable")
  , get_device_location := fun _ => .error (.otherError "data source unavailable")
  , get_trip_data := fun _ _ _ => .error (.otherError "data source unavailable")
  , get_fault_data := fun _ _ _ => .error (.otherError "data source unavailable") }

/-- A benign stub data source for the docker variant. -/
def stubB : ServerB.DataSourceB :=
  { get_devices := fun _ => .ok []
  , get_device_location := fun _ => .ok .vNull
  , get_trips := fun _ _ _ _ => .ok []
  , get_fault_data := fun _ _ _ _ => .ok []
  , get_status_data := fun _ _ _ _ => .ok [] }

/-- A stub data source for the docker variant whose every method raises —
in particular `get_devices`, matching the spec's `HandlerError` scenario. -/
def raisingB : ServerB.DataSourceB :=
  { get_devices := fun _ => .error (.otherError "data source unavailable")
  , get_device_location := fun _ => .error (.otherError "data source unavailable")
  , get_trips := fun _ _ _ _ => .error (.otherError "data source unavailable")
  , get_fault_data := fun _ _ _ _ => .error (.otherError "data source unavailable")
  , get_status_data := fun _ _ _ _ => .error (.otherError "data source unavailable") }

/-- Three concrete trip records, as a stub return value. -/
def threeTrips : List Value :=
  [ .vObj [("id", .vStr "t1")], .vObj [("id", .vStr "t2")], .vObj [("id", .vStr "t3")] ]

/-- A docker-variant stub whose `get_trips` returns exactly three records. -/
def tripsB3 : ServerB.DataSourceB :=
  { stubB with get_trips := fun _ _ _ _ => .ok threeTrips }

/-- Does a computation end in a Python `TypeError`? -/
def isTypeError {α : Type} : Except PyError α → Bool
  | .error (.typeError _) => true
  | _ => false

/-- If a required parameter of the signature has no supplied keyword,
`bindSig` raises `TypeError`. -/
theorem bindSig_missing_required (kwargs : List (String × Value))
    (sig : List ServerA.ParamSig) (p : ServerA.ParamSig)
    (hp : p ∈ sig) (hreq : p.dflt = none) (hmiss : kwargs.lookup p.name = none) :
    isTypeError (ServerA.bindSig kwargs sig) = true := by
  induction sig with
  | nil => simp at hp
  | cons q rest ih =>
    rcases List.mem_cons.mp hp with hq | hq
    · subst hq
      simp [ServerA.bindSig, hmiss, hreq, isTypeError]
    · have hm := ih hq
      simp only [ServerA.bindSig]
      rcases hlq : kwargs.lookup q.name with _ | v
      · rcases hdq : q.dflt with _ | d
        · simp [isTypeError]
        · rcases hb : ServerA.bindSig kwargs rest with e | ok
          · simp [hb, isTypeError] at hm ⊢
            exact hm
          · simp [hb, isTypeError] at hm
      · rcases hb : ServerA.bindSig kwargs rest with e | ok
        · simp [hb, isTypeError] at hm ⊢
          exact hm
        · simp [hb, isTypeError] at hm

/-- A keyword argument that names no declared parameter makes `bindKwargs`
raise `TypeError` (Python's unexpected-keyword-argument error). -/
theorem bindKwargs_unexpected (sig : List ServerA.ParamSig)
    (kwargs : List (String × Value)) (k : String) (v : Value)
    (hkv : (k, v) ∈ kwargs) (hundecl : sig.any (fun p => p.name == k) = false) :
    isTypeError (ServerA.bindKwargs sig kwargs) = true := by
  simp only [ServerA.bindKwargs]
  rcases hf : kwargs.find? (fun kv => !(sig.any (fun p => p.name == kv.1))) with _ | kv
  · exfalso
    have := List.find?_eq_none.mp hf (k, v) hkv
    simp [hundecl] at this
  · rw [hf]
    simp [isTypeError]

/-- A required, unsupplied parameter makes `bindKwargs` raise `TypeError`
(whether or not an unexpected keyword is also present). -/
theorem bindKwargs_missing_required (sig : List ServerA.ParamSig)
    (kwargs : List (String × Value)) (p : ServerA.ParamSig)
    (hp : p ∈ sig) (hreq : p.dflt = none) (hmiss : kwargs.lookup p.name = none) :
    isTypeError (ServerA.bindKwargs sig kwargs) = true := by
  simp only [ServerA.bindKwargs]
  rcases hf : kwargs.find? (fun kv => !(sig.any (fun q => q.name == kv.1))) with _ | kv
  · rw [hf]
    exact bindSig_missing_required kwargs sig p hp hreq hmiss
  · rw [hf]
    simp [isTypeError]

/-- A `TypeError` anywhere in the try block of `handle_execute` is answered
with the `Invalid parameters` envelope. -/
theorem handle_execute_typeError (ds : ServerA.DataSource) (now : Int)
    (op : String) (m : ServerA.OpMethod)
    (hlook : ServerA.operation_map.lookup op = some m)
    (params : List (String × Value))
    (hbind : isTypeError (ServerA.bindKwargs (ServerA.sigOf m) params) = true) :
    (ServerA.handle_execute ds now op params).errField = some "Invalid parameters" := by
  rcases hb : ServerA.bindKwargs (ServerA.sigOf m) params with e | ok
  · rcases e with msg | msg | msg
    · simp [ServerA.handle_execute, hlook, ServerA.runMethod, hb,
        ServerA.dispatchResult, Except.bind, MCPResponse.errField]
    · simp [hb, isTypeError] at hbind
    · simp [hb, isTypeError] at hbind
  · simp [hb, isTypeError] at hbind

/-- C3: for every catalog operation of the geotab-mcp-server variant that
declares a required parameter, an execute call whose parameters mapping
omits that parameter is answered with the `Invalid parameters` error
envelope, never a success result. -/
theorem missing_required_param_invalid_parameters
    (ds : ServerA.DataSource) (now : Int) (op : MCPOperation) (p : MCPParameter)
    (hop : op ∈ ServerA.OPERATIONS) (hp : p ∈ op.parameters) (hreq : p.required = true)
    (params : List (String × Value)) (hmiss : params.lookup p.name = none) :
    (ServerA.handle_execute ds now op.name params).errField = some "Invalid parameters" := by
  simp only [ServerA.OPERATIONS, List.mem_cons, List.not_mem_nil, or_false] at hop
  rcases hop with rfl | rfl | rfl | rfl
  · simp only [List.mem_cons, List.not_mem_nil, or_false] at hp
    subst hp
    simp at hreq
  · simp only [List.mem_cons, List.not_mem_nil, or_false] at hp
    subst hp
    exact handle_execute_typeError ds now "get_device_location" .get_device_location rfl params
      (bindKwargs_missing_required _ params ⟨"device_id", none⟩ (by simp [ServerA.sigOf]) rfl hmiss)
  · simp only [List.mem_cons, List.not_mem_nil, or_false] at hp
    rcases hp with rfl | rfl
    · exact handle_execute_typeError ds now "get_trip_data" .get_trip_data rfl params
        (bindKwargs_missing_required _ params ⟨"device_id", none⟩ (by simp [ServerA.sigOf]) rfl hmiss)
    · simp at hreq
  · simp only [List.mem_cons, List.not_mem_nil, or_false] at hp
    rcases hp with rfl | rfl | rfl
    · exact handle_execute_typeError ds now "get_fault_data" .get_fault_data rfl params
        (bindKwargs_missing_required _ params ⟨"device_id", none⟩ (by simp [ServerA.sigOf]) rfl hmiss)
    · simp at hreq
    · simp at hreq

/-- C3 witness: `execute("get_device_location", {})` against a stub data
source is answered with `Invalid parameters`. -/
theorem missing_required_param_invalid_parameters_witness :
    (ServerA.handle_execute stubA 0 "get_device_location" []).errField
      = some "Invalid parameters" :=
  missing_required_param_invalid_parameters stubA 0
    { name := "get_device_location"
    , description := "Get the current location of a specific device"
    , parameters :=
        [ { name := "device_id"
          , type := "string"
          , description := "ID of the device to get location for"
          , required := true
          , default := none } ]
    , returns := "Current location information including coordinates, speed, and address" }
    { name := "device_id"
    , type := "string"
    , description := "ID of the device to get location for"
    , required := true
    , default := none }
    (by simp [ServerA.OPERATIONS]) (by simp) rfl [] rfl

/-- C9: in the geotab-mcp-server variant, supplying a parameter key that the
named operation's method does not declare is answered with the `Invalid
parameters` envelope — the splatted keyword raises `TypeError`, which the
dispatcher converts. -/
theorem unexpected_param_invalid_parameters
    (ds : ServerA.DataSource) (now : Int) (op : String) (m : ServerA.OpMethod)
    (hlook : ServerA.operation_map.lookup op = some m)
    (params : List (String × Value)) (k : String) (v : Value)
    (hkv : (k, v) ∈ params)
    (hundecl : (ServerA.sigOf m).any (fun p => p.name == k) = false) :
    (ServerA.handle_execute ds now op params).errField = some "Invalid parameters" :=
  handle_execute_typeError ds now op m hlook params
    (bindKwargs_unexpected (ServerA.sigOf m) params k v hkv hundecl)

/-- C9 witness: `execute("get_device_location", {"device_id": "d", "bogus": 1})`
is answered with `Invalid parameters`. -/
theorem unexpected_param_invalid_parameters_witness :
    (ServerA.handle_execute stubA 0 "get_device_location"
        [("device_id", .vStr "d"), ("bogus", .vNum 1)]).errField
      = some "Invalid parameters" :=
  unexpected_param_invalid_parameters stubA 0 "get_device_location" .get_device_location rfl
    [("device_id", .vStr "d"), ("bogus", .vNum 1)] "bogus" (.vNum 1)
    (by simp) (by simp [ServerA.sigOf])

/-- C1: in both variants, an execute call on a registered operation whose
resolved handler raises is answered with an error envelope that carries the
underlying exception message as `details.message`; the dispatcher is a
total function into response envelopes, so the exception never propagates
to the transport layer. -/
theorem handler_exception_becomes_error_envelope :
    (∀ (ds : ServerA.DataSource) (now : Int) (op : String) (m : ServerA.OpMethod)
       (params : List (String × Value)) (e : PyError),
       ServerA.operation_map.lookup op = some m →
       ServerA.runMethod ds now m params = .error e →
       (ServerA.handle_execute ds now op params).respType = "error" ∧
       (ServerA.handle_execute ds now op params).detailsField
         = some [("message", .vStr e.msg)])
  ∧ (∀ (ds : ServerB.DataSourceB) (now : Int) (op : String) (h : ServerB.HandlerId)
       (params : List (String × Value)) (e : PyError),
       ServerB.OPERATION_HANDLERS.lookup op = some h →
       ServerB.runHandler ds now h params = .error e →
       (ServerB.handle_execute_core ds now op params).respType = "error" ∧
       (ServerB.handle_execute_core ds now op params).detailsField
         = some [("message", .vStr e.msg)]) := by
  constructor
  · intro ds now op m params e hlook hrun
    rcases e with msg | msg | msg <;>
      simp [ServerA.handle_execute, hlook, hrun, ServerA.dispatchResult, Except.bind,
        MCPResponse.respType, MCPResponse.detailsField, PyError.msg]
  · intro ds now op h params e hlook hrun
    rcases e with msg | msg | msg <;>
      simp [ServerB.handle_execute_core, ServerB.execute_operation, hlook, hrun,
        MCPResponse.respType, MCPResponse.detailsField, PyError.msg]

/-- C1 witness: stub data sources that raise on the device-listing call make
`execute("get_device_info", {})` (server variant) and
`execute("get_devices", {})` (docker variant) return error envelopes with
the underlying message, not a propagated exception. -/
theorem handler_exception_becomes_error_envelope_witness :
    ((ServerA.handle_execute raisingA 0 "get_device_info" []).respType = "error" ∧
     (ServerA.handle_execute raisingA 0 "get_device_info" []).detailsField
       = some [("message", .vStr "data source unavailable")])
  ∧ ((ServerB.handle_execute_core raisingB 0 "get_devices" []).respType = "error" ∧
     (ServerB.handle_execute_core raisingB 0 "get_devices" []).detailsField
       = some [("message", .vStr "data source unavailable")]) := by
  constructor
  · exact handler_exception_becomes_error_envelope.1 raisingA 0 "get_device_info"
      .get_device_info [] (.otherError "data source unavailable") rfl rfl
  · exact handler_exception_becomes_error_envelope.2 raisingB 0 "get_devices"
      .get_devices [] (.otherError "data source unavailable") rfl rfl

/-- C2 counterexample: in the docker variant, `execute("nonexistent_op", {})`
is answered with error `"Operation error"` — not `"Unknown operation"` —
and its details carry only `message`, no `available_operations` list. -/
theorem docker_unknown_op_counterexample :
    (ServerB.handle_execute_core stubB 0 "nonexistent_op" []
        = .errorR "0.1.0" "Operation error"
            (some [("message", .vStr "Unknown operation: nonexistent_op")]))
  ∧ (ServerB.handle_execute_core stubB 0 "nonexistent_op" []).errField
      ≠ some "Unknown operation"
  ∧ (((ServerB.handle_execute_core stubB 0 "nonexistent_op" []).detailsField.getD
        []).lookup "available_operations") = none := by
  refine ⟨rfl, ?_, rfl⟩
  have he : (ServerB.handle_execute_core stubB 0 "nonexistent_op" []).errField
      = some "Operation error" := rfl
  rw [he]
  simp

/-- C2 amended: the geotab-mcp-server dispatcher answers an unknown
operation with the `Unknown operation` envelope whose
`details.available_operations` lists every catalog name; the docker
variant's dispatcher instead surfaces the `ValueError` raised by
`execute_operation` as an `Operation error` envelope whose
`details.message` names the operation. -/
theorem unknown_operation_envelopes :
    (∀ (ds : ServerA.DataSource) (now : Int) (op : String)
       (params : List (String × Value)),
       ServerA.operation_map.lookup op = none →
       ServerA.handle_execute ds now op params
         = .errorR MCP_VERSION "Unknown operation"
             (some [ ("requested_operation", .vStr op)
                   , ("available_operations",
                       .vList (ServerA.OPERATIONS.map (fun o => .vStr o.name))) ]))
  ∧ (∀ (ds : ServerB.DataSourceB) (now : Int) (op : String)
       (params : List (String × Value)),
       ServerB.OPERATION_HANDLERS.lookup op = none →
       ServerB.handle_execute_core ds now op params
         = .errorR MCP_VERSION "Operation error"
             (some [("message", .vStr ("Unknown operation: " ++ op))])) := by
  constructor
  · intro ds now op params hlook
    simp [ServerA.handle_execute, hlook]
    rfl
  · intro ds now op params hlook
    simp [ServerB.handle_execute_core, ServerB.execute_operation, hlook]

/-- C2 witness: both dispatchers at the concrete unknown operation
`"nonexistent_op"`. -/
theorem unknown_operation_envelopes_witness :
    (ServerA.handle_execute stubA 0 "nonexistent_op" []
        = .errorR MCP_VERSION "Unknown operation"
            (some [ ("requested_operation", .vStr "nonexistent_op")
                  , ("available_operations",
                      .vList (ServerA.OPERATIONS.map (fun o => .vStr o.name))) ]))
  ∧ (ServerB.handle_execute_core stubB 0 "nonexistent_op" []
        = .errorR MCP_VERSION "Operation error"
            (some [("message", .vStr "Unknown operation: nonexistent_op")])) :=
  ⟨unknown_operation_envelopes.1 stubA 0 "nonexistent_op" [] rfl,
   unknown_operation_envelopes.2 stubB 0 "nonexistent_op" [] rfl⟩

/-- C4: whatever version the caller supplies, `handle_discover` succeeds
and returns the full `OPERATIONS` catalog verbatim, tagged with the
protocol's current version `"0.1.0"`, not the caller's. -/
theorem discover_returns_catalog_current_version :
    ∀ version : String,
      ServerA.handle_discover version = .discoverR "0.1.0" ServerA.OPERATIONS ∧
      (ServerA.handle_discover version).respType = "discover" :=
  fun _ => ⟨rfl, rfl⟩

/-- C8: discover is idempotent and version-insensitive — two discover calls
against the same catalog, with any two version values, return identical
responses and, in particular, identical operation lists. -/
theorem discover_idempotent_version_insensitive :
    ∀ v1 v2 : String,
      ServerA.handle_discover v1 = ServerA.handle_discover v2 ∧
      (ServerA.handle_discover v1).opsField = (ServerA.handle_discover v2).opsField :=
  fun _ _ => ⟨rfl, rfl⟩

/-- C6: in each server variant, catalog and handler table are in lock-step —
the catalog names equal the handler-table keys, in order, both without
duplicates, so membership coincides. -/
theorem catalog_handlers_lock_step :
    (ServerA.OPERATIONS.map MCPOperation.name = ServerA.operation_map.map Prod.fst
      ∧ (ServerA.operation_map.map Prod.fst).Nodup
      ∧ ∀ s : String,
          s ∈ ServerA.OPERATIONS.map MCPOperation.name ↔
            s ∈ ServerA.operation_map.map Prod.fst)
  ∧ (ServerB.OPERATIONS.map MCPOperation.name = ServerB.OPERATION_HANDLERS.map Prod.fst
      ∧ (ServerB.OPERATION_HANDLERS.map Prod.fst).Nodup
      ∧ ∀ s : String,
          s ∈ ServerB.OPERATIONS.map MCPOperation.name ↔
            s ∈ ServerB.OPERATION_HANDLERS.map Prod.fst) :=
  ⟨⟨rfl, by decide, fun _ => Iff.rfl⟩, ⟨rfl, by decide, fun _ => Iff.rfl⟩⟩

/-- C5: the endpoint answers every request value with a response envelope
(it is a total function); a `type` field that is missing or not one of
`discover`/`execute` yields an error-typed envelope, and so does an
`execute` request without an `operation` field. -/
theorem malformed_envelope_error_response
    (ds : ServerA.DataSource) (now : Int) (data : List (String × Value)) :
    ((∀ s : String, data.lookup "type" = some (.vStr s) →
        s ≠ "discover" ∧ s ≠ "execute") →
      (ServerA.mcp_endpoint ds now data).respType = "error")
  ∧ ((data.lookup "type" = some (.vStr "execute") ∧ data.lookup "operation" = none) →
      (ServerA.mcp_endpoint ds now data).respType = "error") := by
  constructor
  · intro hbad
    simp only [ServerA.mcp_endpoint]
    rcases hlook : data.lookup "type" with _ | v
    · rfl
    · rcases v with s | n | b | _ | xs | fs
      · obtain ⟨h1, h2⟩ := hbad s hlook
        dsimp only
        rw [if_neg h1, if_neg h2]
        rfl
      all_goals rfl
  · rintro ⟨htype, hop⟩
    simp only [ServerA.mcp_endpoint]
    rw [htype]
    dsimp only
    rw [if_neg (by decide : ¬ ("execute" : String) = "discover"), if_pos rfl, hop]
    rcases data.lookup "version" with _ | v <;> rfl

/-- C5 witness: an unknown `type` and an `execute` request without an
`operation` field both get error-typed envelopes. -/
theorem malformed_envelope_error_response_witness :
    (ServerA.mcp_endpoint stubA 0 [("type", .vStr "bogus")]).respType = "error"
  ∧ (ServerA.mcp_endpoint stubA 0
      [("type", .vStr "execute"), ("version", .vStr "0.1.0")]).respType = "error" := by
  constructor
  · refine (malformed_envelope_error_response stubA 0 _).1 ?_
    intro s hs
    have hs2 : some (Value.vStr "bogus") = some (Value.vStr s) := hs
    injection hs2 with h
    injection h with h
    subst h
    exact ⟨by decide, by decide⟩
  · exact (malformed_envelope_error_response stubA 0 _).2 ⟨rfl, rfl⟩

/-- C7: in the docker variant, `execute("get_trips", {"device_id": "b1",
"days": 2})` against a stub whose trip query returns three records is a
success whose `count` is 3, whose `trips` has length 3, and whose
`from_date` is exactly two days before `to_date`. -/
theorem get_trips_count_and_window
    (ds : ServerB.DataSourceB) (now : Int) (trips : List Value)
    (hds : ds.get_trips (.vStr "b1") (now - 2 * 86400) now (.vBool false) = .ok trips)
    (hlen : trips.length = 3) :
    ServerB.handle_execute_core ds now "get_trips"
        [("device_id", .vStr "b1"), ("days", .vNum 2)]
      = .executeR MCP_VERSION "get_trips"
          [ ("device_id", .vStr "b1")
          , ("from_date", .vNum (now - 2 * 86400))
          , ("to_date", .vNum now)
          , ("trips", .vList trips)
          , ("count", .vNum 3)
          , ("timestamp", .vNum now) ]
    ∧ now - (now - 2 * 86400) = 2 * 86400 := by
  constructor
  · have step : ServerB.handle_execute_core ds now "get_trips"
        [("device_id", .vStr "b1"), ("days", .vNum 2)]
      = (match (fun a => [ ("device_id", Value.vStr "b1")
                         , ("from_date", Value.vNum (now - 2 * 86400))
                         , ("to_date", Value.vNum now)
                         , ("trips", Value.vList a)
                         , ("count", Value.vNum a.length)
                         , ("timestamp", Value.vNum now) ]) <$>
             ds.get_trips (.vStr "b1") (now - 2 * 86400) now (.vBool false) with
         | .ok result => .executeR MCP_VERSION "get_trips" result
         | .error (.valueError m) =>
             .errorR MCP_VERSION "Operation error" (some [("message", .vStr m)])
         | .error e =>
             .errorR MCP_VERSION "Operation execution failed"
               (some [("message", .vStr e.msg)])) := rfl
    rw [step, hds]
    simp [hlen, Functor.map, Except.map]
  · ring

/-- C7 witness: the concrete three-trip stub at `now = 5`. -/
theorem get_trips_count_and_window_witness :
    ServerB.handle_execute_core tripsB3 5 "get_trips"
        [("device_id", .vStr "b1"), ("days", .vNum 2)]
      = .executeR MCP_VERSION "get_trips"
          [ ("device_id", .vStr "b1")
          , ("from_date", .vNum (5 - 2 * 86400))
          , ("to_date", .vNum 5)
          , ("trips", .vList threeTrips)
          , ("count", .vNum 3)
          , ("timestamp", .vNum 5) ]
    ∧ (5 : Int) - (5 - 2 * 86400) = 2 * 86400 :=
  get_trips_count_and_window tripsB3 5 threeTrips rfl rfl

/-- C10: in both variants, `get_device_location` with a `device_id` for
which the data source yields no location is a successful execute envelope
(type `"execute"`) whose result carries an `error` key together with the
device id and a timestamp — not an error envelope. -/
theorem location_unavailable_success_result
    (dsA : ServerA.DataSource) (dsB : ServerB.DataSourceB) (now : Int) (did : String)
    (hdid : did ≠ "") (loc : Value) (hloc : truthy loc = false)
    (hA : dsA.get_device_location (.vStr did) = .ok loc)
    (hB : dsB.get_device_location (.vStr did) = .ok loc) :
    (ServerA.handle_execute dsA now "get_device_location" [("device_id", .vStr did)]
        = .executeR MCP_VERSION "get_device_location"
            [ ("error", .vStr "Device location not found")
            , ("device_id", .vStr did)
            , ("timestamp", .vNum now) ])
  ∧ (ServerB.handle_execute_core dsB now "get_device_location" [("device_id", .vStr did)]
        = .executeR MCP_VERSION "get_device_location"
            [ ("error", .vStr "Location not available for device")
            , ("device_id", .vStr did)
            , ("timestamp", .vNum now) ]) := by
  have ht : truthy (.vStr did) = true := by simp [truthy, hdid]
  constructor
  · have step : ServerA.handle_execute dsA now "get_device_location"
        [("device_id", .vStr did)]
      = ServerA.dispatchResult "get_device_location"
          ((ServerA.get_device_location dsA now (.vStr did)).bind
            ServerA.extractResult) := rfl
    rw [step]
    simp only [ServerA.get_device_location]
    rw [hA]
    simp [hloc, ServerA.extractResult, ServerA.dispatchResult, List.lookup,
      Bind.bind, Except.bind, Pure.pure, Except.pure]
  · have step : ServerB.handle_execute_core dsB now "get_device_location"
        [("device_id", .vStr did)]
      = (match ServerB.handle_get_device_location dsB now [("device_id", .vStr did)] with
         | .ok result => .executeR MCP_VERSION "get_device_location" result
         | .error (.valueError m) =>
             .errorR MCP_VERSION "Operation error" (some [("message", .vStr m)])
         | .error e =>
             .errorR MCP_VERSION "Operation execution failed"
               (some [("message", .vStr e.msg)])) := rfl
    rw [step]
    simp only [ServerB.handle_get_device_location, ServerB.paramGet, List.lookup,
      beq_self_eq_true, Option.getD_some, ht]
    rw [hB]
    simp [hloc, Bind.bind, Except.bind, Pure.pure, Except.pure]

/-- C10 witness: stub data sources that return no location, at
`device_id = "d1"` and `now = 7`. -/
theorem location_unavailable_success_result_witness :
    (ServerA.handle_execute stubA 7 "get_device_location" [("device_id", .vStr "d1")]
        = .executeR MCP_VERSION "get_device_location"
            [ ("error", .vStr "Device location not found")
            , ("device_id", .vStr "d1")
            , ("timestamp", .vNum 7) ])
  ∧ (ServerB.handle_execute_core stubB 7 "get_device_location" [("device_id", .vStr "d1")]
        = .executeR MCP_VERSION "get_device_location"
            [ ("error", .vStr "Location not available for device")
            , ("device_id", .vStr "d1")
            , ("timestamp", .vNum 7) ]) :=
  location_unavailable_success_result stubA stubB 7 "d1" (by decide) .vNull rfl rfl rfl
